import Mathlib

/-!
Shallow embedding of the `rust-wiiu/notifications` crate
(`src/src/lib.rs` and the deduplicated variant `src/core/src/lib.rs`).

Machine integers of the native status enumeration are modelled as `Int`;
Rust `f32` fractional-second values are modelled exactly as `Rat` (every
value the code manufactures — `as_secs_f32` of whole seconds, `0.0`,
`255.0 * opacity` for the opacities used — is exactly representable, so
the rational model agrees with the f32 computation on all values that
occur). Heap pointers are modelled as `Option Nat` (`none` = null).
-/

namespace Notif

/- The native `NotificationModuleStatus` enumeration
(external ABI, consumed through the generated bindings; the wrapper
treats the codes as opaque distinct integers with a single success
constant). -/
namespace NotificationModuleStatus

def NOTIFICATION_MODULE_RESULT_SUCCESS : Int := 0

def NOTIFICATION_MODULE_RESULT_MODULE_NOT_FOUND : Int := -1

def NOTIFICATION_MODULE_RESULT_MODULE_MISSING_EXPORT : Int := -2

def NOTIFICATION_MODULE_RESULT_UNSUPPORTED_VERSION : Int := -3

def NOTIFICATION_MODULE_RESULT_INVALID_ARGUMENT : Int := -4

def NOTIFICATION_MODULE_RESULT_LIB_UNINITIALIZED : Int := -5

def NOTIFICATION_MODULE_RESULT_UNSUPPORTED_COMMAND : Int := -6

def NOTIFICATION_MODULE_RESULT_OVERLAY_NOT_READY : Int := -7

def NOTIFICATION_MODULE_RESULT_UNSUPPORTED_TYPE : Int := -8

def NOTIFICATION_MODULE_RESULT_ALLOCATION_FAILED : Int := -9

def NOTIFICATION_MODULE_RESULT_INVALID_HANDLE : Int := -10

def NOTIFICATION_MODULE_RESULT_UNKNOWN_ERROR : Int := -4096

end NotificationModuleStatus

/-- `NotificationError` from `src/src/lib.rs` lines 29-60: the closed
error taxonomy. `unknown` carries the raw code; `internalZeroByte` is
the local embedded-NUL validation failure (`alloc::ffi::NulError`). -/
inductive NotificationError where
  | moduleNotFound
  | moduleMissingExport
  | unsupportedVersion
  | invalidArgument
  | libUninitialized
  | unsupportedCommand
  | overlayNotReady
  | unsupportedType
  | allocationFailed
  | invalidHandle
  | unknown (code : Int)
  | internalZeroByte
deriving DecidableEq

/-- `impl TryFrom<i32> for NotificationError` (`src/src/lib.rs` lines
62-81): `Ok` (modelled as `Except.ok`) exactly on the success constant,
ten listed codes to their kinds, catch-all to `unknown v`. -/
def NotificationError.tryFrom (value : Int) :
    Except NotificationError NotificationError :=
  open NotificationModuleStatus in
  if value = NOTIFICATION_MODULE_RESULT_SUCCESS then
    .ok (.unknown value)
  else if value = NOTIFICATION_MODULE_RESULT_MODULE_NOT_FOUND then
    .error .moduleNotFound
  else if value = NOTIFICATION_MODULE_RESULT_MODULE_MISSING_EXPORT then
    .error .moduleMissingExport
  else if value = NOTIFICATION_MODULE_RESULT_UNSUPPORTED_VERSION then
    .error .unsupportedVersion
  else if value = NOTIFICATION_MODULE_RESULT_INVALID_ARGUMENT then
    .error .invalidArgument
  else if value = NOTIFICATION_MODULE_RESULT_LIB_UNINITIALIZED then
    .error .libUninitialized
  else if value = NOTIFICATION_MODULE_RESULT_UNSUPPORTED_COMMAND then
    .error .unsupportedCommand
  else if value = NOTIFICATION_MODULE_RESULT_OVERLAY_NOT_READY then
    .error .overlayNotReady
  else if value = NOTIFICATION_MODULE_RESULT_UNSUPPORTED_TYPE then
    .error .unsupportedType
  else if value = NOTIFICATION_MODULE_RESULT_ALLOCATION_FAILED then
    .error .allocationFailed
  else if value = NOTIFICATION_MODULE_RESULT_INVALID_HANDLE then
    .error .invalidHandle
  else
    .error (.unknown value)

/-- Rust `as u8` on an `f32`: saturating cast truncating toward zero
(negative values to 0, values above 255 to 255). Used for
`(255f32 * opacity) as u8` in the `Color` constructors. -/
def f32ToU8 (x : Rat) : Nat :=
  if x ≤ 0 then 0 else min 255 x.floor.toNat

/-- The native `NMColor` quadruple of 8-bit channels; `Color` in
`src/src/lib.rs` wraps it directly (the conversions at lines 89-99 are
the identity on the quadruple). -/
structure Color where
  r : Nat
  g : Nat
  b : Nat
  a : Nat
deriving DecidableEq

/-- `Color::white(opacity)` (`src/src/lib.rs` lines 103-110). -/
def Color.white (opacity : Rat) : Color :=
  ⟨255, 255, 255, f32ToU8 (255 * opacity)⟩

/-- `Color.black(opacity)` (`src/src/lib.rs` lines 113-120). -/
def Color.black (opacity : Rat) : Color :=
  ⟨0, 0, 0, f32ToU8 (255 * opacity)⟩

/-- `Color::red(opacity)` (`src/src/lib.rs` lines 123-130). -/
def Color.red (opacity : Rat) : Color :=
  ⟨255, 0, 0, f32ToU8 (255 * opacity)⟩

/-- `core::time::Duration`: whole seconds plus nanoseconds. -/
structure Duration where
  secs : Nat
  nanos : Nat
deriving DecidableEq

/-- `Duration::from_secs`. -/
def Duration.from_secs (n : Nat) : Duration := ⟨n, 0⟩

/-- `Duration::as_secs_f32`, modelled exactly as a rational number of
seconds (exact for every duration the wrapper constructs). -/
def Duration.as_secs_f32 (d : Duration) : Rat :=
  (d.secs : Rat) + (d.nanos : Rat) / 1000000000

/-- `opt.map_or(0.0, |d| d.as_secs_f32())` as used for the builder's
`shake` and `delay` options in the three `show` implementations. -/
def secsOrZero (o : Option Duration) : Rat :=
  match o with
  | none => 0
  | some d => d.as_secs_f32

/-- A one-shot boxed closure (`Box<Box<dyn FnOnce()>>`), modelled as an
opaque token; the bridge only moves and consumes it, never inspects it. -/
abbrev Closure := Nat

/-- `NotificationBuilder<T>` (`src/src/lib.rs` lines 465-475). The
phantom kind parameter `T` only selects which `show` strategy and which
kind-specific setters apply; the stored fields are common to all kinds,
so the state is one structure and the three kinds are the three `show`
functions below. `text` is the UTF-8 byte sequence of the Rust
`String`. -/
structure NotificationBuilder where
  text : List Nat
  duration : Duration
  text_color : Color
  background_color : Color
  callback : Option Closure
  keep_until_shown : Bool
  shake : Option Duration
  delay : Option Duration
deriving DecidableEq

/-- `impl Default for NotificationBuilder` (`src/src/lib.rs` lines
477-491). -/
def NotificationBuilder.mkDefault : NotificationBuilder where
  text := []
  duration := Duration.from_secs 5
  text_color := Color.white 1
  background_color := Color.black (1 / 2)
  callback := none
  keep_until_shown := true
  shake := none
  delay := none

/-- Setter `text` (`src/src/lib.rs` lines 495-498); named `set_text`
here because the structure field already takes the source name. -/
def NotificationBuilder.set_text (b : NotificationBuilder) (t : List Nat) :
    NotificationBuilder :=
  { b with text := t }

/-- Setter `duration` (`src/src/lib.rs` lines 501-504). -/
def NotificationBuilder.set_duration (b : NotificationBuilder) (d : Duration) :
    NotificationBuilder :=
  { b with duration := d }

/-- Setter `text_color` (`src/src/lib.rs` lines 507-510). -/
def NotificationBuilder.set_text_color (b : NotificationBuilder) (c : Color) :
    NotificationBuilder :=
  { b with text_color := c }

/-- Setter `background_color` (`src/src/lib.rs` lines 513-516). -/
def NotificationBuilder.set_background_color (b : NotificationBuilder)
    (c : Color) : NotificationBuilder :=
  { b with background_color := c }

/-- Setter `callback` (`src/src/lib.rs` lines 519-522): double-boxes the
closure; in the model the token is stored. -/
def NotificationBuilder.set_callback (b : NotificationBuilder) (f : Closure) :
    NotificationBuilder :=
  { b with callback := some f }

/-- Setter `keep_until_shown` (`src/src/lib.rs` lines 525-528). -/
def NotificationBuilder.set_keep_until_shown (b : NotificationBuilder)
    (keep : Bool) : NotificationBuilder :=
  { b with keep_until_shown := keep }

/-- Setter `shake` on `NotificationBuilder<Dynamic>` and
`NotificationBuilder<Error>` (`src/src/lib.rs` lines 537-540 and
549-552). -/
def NotificationBuilder.set_shake (b : NotificationBuilder)
    (d : Option Duration) : NotificationBuilder :=
  { b with shake := d }

/-- Setter `delay` on `NotificationBuilder<Dynamic>` (`src/src/lib.rs`
lines 542-545). -/
def NotificationBuilder.set_delay (b : NotificationBuilder)
    (d : Option Duration) : NotificationBuilder :=
  { b with delay := d }

/-- `dynamic(text)` (`src/src/lib.rs` lines 570-572). -/
def dynamic (text : List Nat) : NotificationBuilder :=
  NotificationBuilder.mkDefault.set_text text

/-- `info(text)` (`src/src/lib.rs` lines 574-576). -/
def info (text : List Nat) : NotificationBuilder :=
  NotificationBuilder.mkDefault.set_text text

/-- `error(text)` (`src/src/lib.rs` lines 578-583). -/
def error (text : List Nat) : NotificationBuilder :=
  ((NotificationBuilder.mkDefault.set_text text).set_background_color
      (Color.red 1)).set_shake (some (Duration.from_secs 1))

/-- Observable foreign-boundary actions of the wrapper, in program
order: `acq`/`rel` are `NOTIFY.acquire()` and the release of the
returned `RrcGuard`; the rest are the native entry points with their
marshalled arguments (`hasCb` records whether a trampoline pointer was
passed, i.e. whether `builder.callback` was `Some`). -/
inductive Event where
  | acq
  | rel
  | addDynamic (text : List Nat) (textColor bgColor : Color)
      (hasCb : Bool) (keep : Bool)
  | addInfo (text : List Nat) (durationSecs : Rat)
      (textColor bgColor : Color) (hasCb : Bool) (keep : Bool)
  | addError (text : List Nat) (durationSecs shakeSecs : Rat)
      (textColor bgColor : Color) (hasCb : Bool) (keep : Bool)
  | updateText (handle : Nat) (text : List Nat)
  | updateTextColor (handle : Nat) (color : Color)
  | updateBgColor (handle : Nat) (color : Color)
  | finishWithShake (handle : Nat) (delaySecs shakeSecs : Rat)
deriving DecidableEq

/-- `CString::new` on the text bytes: fails (with `NulError`, wrapped
into `NotificationError::InternalZeroByte` by the `?` conversion) iff
the bytes contain an embedded zero. -/
def cstringFails (text : List Nat) : Bool := text.contains 0

/-- `Notification` (`src/src/lib.rs` lines 290-295): the live dynamic
handle with the fractional-second delay/shake captured at construction
and the owned `RrcGuard` (its presence is the ownership of one
lifecycle acquisition; its release is the `Event.rel` emitted by
`dropNotification`). -/
structure Notification where
  handle : Nat
  delay : Rat
  shake : Rat
deriving DecidableEq

/-- `impl NotificationType for Dynamic`, `show` (`src/src/lib.rs` lines
365-398). `status` is the value the native add call returns and
`handle` the value it writes through the out-pointer; the trace lists
the foreign-boundary actions in order. On success the guard `r` is
moved into the returned `Notification` (no `rel` in the trace); on a
mapped error the `?` return drops `r` (a trailing `rel`). -/
def dynamicShow (b : NotificationBuilder) (status : Int) (handle : Nat) :
    Except NotificationError Notification × List Event :=
  if cstringFails b.text then
    (.error .internalZeroByte, [])
  else
    let call := Event.addDynamic b.text b.text_color b.background_color
      b.callback.isSome b.keep_until_shown
    match NotificationError.tryFrom status with
    | .error e => (.error e, [.acq, call, .rel])
    | .ok _ =>
        (.ok { handle := handle
               delay := secsOrZero b.delay
               shake := secsOrZero b.shake },
         [.acq, call])

/-- `impl NotificationType for Info`, `show` (`src/src/lib.rs` lines
403-429): fire-and-forget; the guard `_r` is released at scope exit on
both the error and the success path. -/
def infoShow (b : NotificationBuilder) (status : Int) :
    Except NotificationError Unit × List Event :=
  if cstringFails b.text then
    (.error .internalZeroByte, [])
  else
    let call := Event.addInfo b.text b.duration.as_secs_f32 b.text_color
      b.background_color b.callback.isSome b.keep_until_shown
    match NotificationError.tryFrom status with
    | .error e => (.error e, [.acq, call, .rel])
    | .ok _ => (.ok (), [.acq, call, .rel])

/-- `impl NotificationType for Error`, `show` (`src/src/lib.rs` lines
435-463): like `infoShow` but passing the optional shake duration
(zero if unset). -/
def errorShow (b : NotificationBuilder) (status : Int) :
    Except NotificationError Unit × List Event :=
  if cstringFails b.text then
    (.error .internalZeroByte, [])
  else
    let call := Event.addError b.text b.duration.as_secs_f32
      (secsOrZero b.shake) b.text_color b.background_color
      b.callback.isSome b.keep_until_shown
    match NotificationError.tryFrom status with
    | .error e => (.error e, [.acq, call, .rel])
    | .ok _ => (.ok (), [.acq, call, .rel])

/-- `Notification::text` (`src/src/lib.rs` lines 299-308): marshals the
replacement text, calls the native update, maps the status. Takes
`&self`, so the handle state is returned unchanged; the trace records
the native call (absent when `CString::new` fails first). -/
def Notification.updText (n : Notification) (text : List Nat)
    (status : Int) :
    Except NotificationError Unit × Notification × List Event :=
  if cstringFails text then
    (.error .internalZeroByte, n, [])
  else
    match NotificationError.tryFrom status with
    | .error e => (.error e, n, [.updateText n.handle text])
    | .ok _ => (.ok (), n, [.updateText n.handle text])

/-- `Notification::text_color` (`src/src/lib.rs` lines 311-318). -/
def Notification.updTextColor (n : Notification) (color : Color)
    (status : Int) :
    Except NotificationError Unit × Notification × List Event :=
  match NotificationError.tryFrom status with
  | .error e => (.error e, n, [.updateTextColor n.handle color])
  | .ok _ => (.ok (), n, [.updateTextColor n.handle color])

/-- `Notification::bg_color` (`src/src/lib.rs` lines 321-328). -/
def Notification.updBgColor (n : Notification) (color : Color)
    (status : Int) :
    Except NotificationError Unit × Notification × List Event :=
  match NotificationError.tryFrom status with
  | .error e => (.error e, n, [.updateBgColor n.handle color])
  | .ok _ => (.ok (), n, [.updateBgColor n.handle color])

/-- `impl Drop for Notification` (`src/src/lib.rs` lines 331-342):
calls `FinishDynamicNotificationWithShake(handle, delay, shake)`, then
`NotificationError::try_from(status).unwrap()` — which panics exactly
when the status is not the success constant. The result is the trace of
foreign-boundary actions together with whether the `unwrap` panicked;
on normal completion the held `RrcGuard` is released (the trailing
`rel`) only after the finish call returns, while a panic aborts before
the guard field is dropped. -/
def dropNotification (n : Notification) (status : Int) :
    List Event × Bool :=
  match NotificationError.tryFrom status with
  | .ok _ => ([.finishWithShake n.handle n.delay n.shake, .rel], false)
  | .error _ => ([.finishWithShake n.handle n.delay n.shake], true)

/-- One mutator invocation, as it appears to the handle state: the Rust
mutators take `&self` and return `Result<(), _>`, so applying any of
them yields the `Notification` component of the corresponding model
function. Used to express "regardless of how many mutator calls
occurred in between". -/
inductive MutOp where
  | updText (text : List Nat) (status : Int)
  | updTextColor (color : Color) (status : Int)
  | updBgColor (color : Color) (status : Int)

/-- The handle state after one mutator call (the middle component of
the mutator's result). -/
def applyMut (n : Notification) : MutOp → Notification
  | .updText t st => (n.updText t st).2.1
  | .updTextColor c st => (n.updTextColor c st).2.1
  | .updBgColor c st => (n.updBgColor c st).2.1

/-- The handle state after a sequence of mutator calls. -/
def applyMuts (n : Notification) (ops : List MutOp) : Notification :=
  ops.foldl applyMut n

/-- The heap of boxed callback contexts: a bump allocator over
addresses with an association list of live allocations. A raw
`*mut c_void` is `Option Nat` (`none` = null); `Box::into_raw` always
yields a non-null address. -/
structure Heap where
  next : Nat
  live : List (Nat × Closure)
deriving DecidableEq

/-- The empty heap. -/
def Heap.empty : Heap := ⟨0, []⟩

/-- `Box::into_raw(f)`: relocate the closure onto the heap, returning
the raw address. -/
def Heap.boxIntoRaw (h : Heap) (f : Closure) : Nat × Heap :=
  (h.next, ⟨h.next + 1, (h.next, f) :: h.live⟩)

/-- Look up a live allocation. -/
def Heap.lookup (h : Heap) (addr : Nat) : Option Closure :=
  (h.live.find? (fun p => p.1 = addr)).map Prod.snd

/-- `Box::from_raw(addr)` followed by dropping the box: the allocation
is removed from the heap. -/
def Heap.free (h : Heap) (addr : Nat) : Heap :=
  ⟨h.next, h.live.filter (fun p => ¬ p.1 = addr)⟩

/-- The callback resolution performed at the top of each `show`
(`src/src/lib.rs` lines 367-374): returns whether a trampoline function
pointer is passed to the native call, the context pointer, and the
heap after any allocation. `None` supplies no trampoline, a null
context, and allocates nothing; `Some f` supplies the trampoline and
`Box::into_raw`s the double-boxed closure. -/
def resolveCallback (cb : Option Closure) (h : Heap) :
    Bool × Option Nat × Heap :=
  match cb with
  | none => (false, none, h)
  | some f =>
      let (addr, h') := h.boxIntoRaw f
      (true, some addr, h')

/-- `notification_callback` (`src/src/lib.rs` lines 555-563), the
trampoline the native side invokes with the submitted context pointer:
a null pointer does nothing; otherwise `Box::from_raw` reclaims the
boxed closure and `closure()` invokes (consumes) it. Returns the heap
after the call and the list of closure invocations it performed. -/
def notification_callback (arg : Option Nat) (h : Heap) :
    Heap × List Closure :=
  match arg with
  | none => (h, [])
  | some addr =>
      match h.lookup addr with
      | none => (h, [])
      | some f => (h.free addr, [f])

/-- An acquisition or release of the process-wide lifecycle. -/
inductive RrcEvent where
  | acq
  | rel
deriving DecidableEq

/-- Modelled from the spec: the `Rrc` reference-counted lifecycle guard
lives in the external `wut` crate, not in this repository's sources;
`src/src/lib.rs` lines 18-25 only instantiate it with the module's
`InitLibrary`/`DeInitLibrary` entry points. Per §4.1 of the spec, the
state is an atomic counter together with how often the activate
(initialize) and deactivate (deinitialize) side effects have run. -/
structure RrcState where
  count : Nat
  inits : Nat
  deinits : Nat
deriving DecidableEq

/-- Modelled from the spec: one lifecycle transition. An acquisition
increments the count and runs activate exactly on the 0→1 transition; a
release decrements the count and runs deactivate exactly on the 1→0
transition. -/
def rrcStep (s : RrcState) : RrcEvent → RrcState
  | .acq =>
      { count := s.count + 1
        inits := s.inits + (if s.count = 0 then 1 else 0)
        deinits := s.deinits }
  | .rel =>
      { count := s.count - 1
        inits := s.inits
        deinits := s.deinits + (if s.count = 1 then 1 else 0) }

/-- A sequence of lifecycle transitions from a given state. -/
def rrcRun (s : RrcState) (es : List RrcEvent) : RrcState :=
  es.foldl rrcStep s

/-- Outstanding acquisitions after a prefix of events, starting from an
idle lifecycle: acquisitions minus releases. -/
def outstanding (es : List RrcEvent) : Nat :=
  (rrcRun ⟨0, 0, 0⟩ es).count

/-- The lifecycle transitions embedded in a trace of foreign-boundary
actions: the guard acquisitions and releases, in order. -/
def lifecycleEvents : List Event → List RrcEvent
  | [] => []
  | .acq :: es => .acq :: lifecycleEvents es
  | .rel :: es => .rel :: lifecycleEvents es
  | _ :: es => lifecycleEvents es

/- Characterisation of the status mapping, shared by the claim
theorems. -/

set_option maxHeartbeats 1000000 in
lemma tryFrom_ok_iff (v : Int) :
    (∃ x, NotificationError.tryFrom v = .ok x) ↔
      v = NotificationModuleStatus.NOTIFICATION_MODULE_RESULT_SUCCESS := by
  unfold NotificationError.tryFrom
  split_ifs with h1 h2 h3 h4 h5 h6 h7 h8 h9 h10 h11 <;> simp [h1]

lemma tryFrom_success :
    NotificationError.tryFrom
        NotificationModuleStatus.NOTIFICATION_MODULE_RESULT_SUCCESS =
      .ok (.unknown
        NotificationModuleStatus.NOTIFICATION_MODULE_RESULT_SUCCESS) := by
  unfold NotificationError.tryFrom
  simp

set_option maxHeartbeats 1000000 in
lemma tryFrom_error_of_ne (v : Int)
    (h : v ≠ NotificationModuleStatus.NOTIFICATION_MODULE_RESULT_SUCCESS) :
    ∃ e, NotificationError.tryFrom v = .error e := by
  unfold NotificationError.tryFrom
  split_ifs <;> simp_all

lemma rat_floor_eq (q : Rat) : q.floor = ⌊q⌋ := by
  rw [Rat.floor_def', Rat.floor_def]

lemma f32ToU8_one : f32ToU8 (255 * 1) = 255 := by
  rw [f32ToU8, rat_floor_eq]
  norm_num

lemma f32ToU8_half : f32ToU8 (255 * (1 / 2)) = 127 := by
  rw [f32ToU8, rat_floor_eq]
  norm_num
  decide

lemma Color_white_one : Color.white 1 = ⟨255, 255, 255, 255⟩ := by
  rw [Color.white, f32ToU8_one]

lemma Color_black_half : Color.black (1 / 2) = ⟨0, 0, 0, 127⟩ := by
  rw [Color.black, f32ToU8_half]

lemma Color_red_one : Color.red 1 = ⟨255, 0, 0, 255⟩ := by
  rw [Color.red, f32ToU8_one]

/-- C2: the status-to-error mapping is a pure total function on native
integer statuses; it returns success (`Except.ok`) exactly on the
success constant, maps each of the ten listed error codes to its
distinct error kind, and maps every other value to the unknown-error
kind carrying the raw code. -/
theorem C2_status_mapping :
    (∀ v : Int,
      (∃ x, NotificationError.tryFrom v = .ok x) ↔
        v = NotificationModuleStatus.NOTIFICATION_MODULE_RESULT_SUCCESS) ∧
    NotificationError.tryFrom
        NotificationModuleStatus.NOTIFICATION_MODULE_RESULT_MODULE_NOT_FOUND =
      .error .moduleNotFound ∧
    NotificationError.tryFrom
        NotificationModuleStatus.NOTIFICATION_MODULE_RESULT_MODULE_MISSING_EXPORT =
      .error .moduleMissingExport ∧
    NotificationError.tryFrom
        NotificationModuleStatus.NOTIFICATION_MODULE_RESULT_UNSUPPORTED_VERSION =
      .error .unsupportedVersion ∧
    NotificationError.tryFrom
        NotificationModuleStatus.NOTIFICATION_MODULE_RESULT_INVALID_ARGUMENT =
      .error .invalidArgument ∧
    NotificationError.tryFrom
        NotificationModuleStatus.NOTIFICATION_MODULE_RESULT_LIB_UNINITIALIZED =
      .error .libUninitialized ∧
    NotificationError.tryFrom
        NotificationModuleStatus.NOTIFICATION_MODULE_RESULT_UNSUPPORTED_COMMAND =
      .error .unsupportedCommand ∧
    NotificationError.tryFrom
        NotificationModuleStatus.NOTIFICATION_MODULE_RESULT_OVERLAY_NOT_READY =
      .error .overlayNotReady ∧
    NotificationError.tryFrom
        NotificationModuleStatus.NOTIFICATION_MODULE_RESULT_UNSUPPORTED_TYPE =
      .error .unsupportedType ∧
    NotificationError.tryFrom
        NotificationModuleStatus.NOTIFICATION_MODULE_RESULT_ALLOCATION_FAILED =
      .error .allocationFailed ∧
    NotificationError.tryFrom
        NotificationModuleStatus.NOTIFICATION_MODULE_RESULT_INVALID_HANDLE =
      .error .invalidHandle ∧
    ([NotificationError.moduleNotFound, .moduleMissingExport,
      .unsupportedVersion, .invalidArgument, .libUninitialized,
      .unsupportedCommand, .overlayNotReady, .unsupportedType,
      .allocationFailed, .invalidHandle] : List NotificationError).Nodup ∧
    (∀ v : Int,
      v ≠ NotificationModuleStatus.NOTIFICATION_MODULE_RESULT_SUCCESS →
      v ≠ NotificationModuleStatus.NOTIFICATION_MODULE_RESULT_MODULE_NOT_FOUND →
      v ≠ NotificationModuleStatus.NOTIFICATION_MODULE_RESULT_MODULE_MISSING_EXPORT →
      v ≠ NotificationModuleStatus.NOTIFICATION_MODULE_RESULT_UNSUPPORTED_VERSION →
      v ≠ NotificationModuleStatus.NOTIFICATION_MODULE_RESULT_INVALID_ARGUMENT →
      v ≠ NotificationModuleStatus.NOTIFICATION_MODULE_RESULT_LIB_UNINITIALIZED →
      v ≠ NotificationModuleStatus.NOTIFICATION_MODULE_RESULT_UNSUPPORTED_COMMAND →
      v ≠ NotificationModuleStatus.NOTIFICATION_MODULE_RESULT_OVERLAY_NOT_READY →
      v ≠ NotificationModuleStatus.NOTIFICATION_MODULE_RESULT_UNSUPPORTED_TYPE →
      v ≠ NotificationModuleStatus.NOTIFICATION_MODULE_RESULT_ALLOCATION_FAILED →
      v ≠ NotificationModuleStatus.NOTIFICATION_MODULE_RESULT_INVALID_HANDLE →
      NotificationError.tryFrom v = .error (.unknown v)) := by
  refine ⟨tryFrom_ok_iff, rfl, rfl, rfl, rfl, rfl, rfl, rfl, rfl, rfl, rfl,
    by decide, ?_⟩
  intro v h0 h1 h2 h3 h4 h5 h6 h7 h8 h9 h10
  unfold NotificationError.tryFrom
  rw [if_neg h0, if_neg h1, if_neg h2, if_neg h3, if_neg h4, if_neg h5,
    if_neg h6, if_neg h7, if_neg h8, if_neg h9, if_neg h10]

/-- Witness for C2: the mapping evaluated at the concrete unmapped
status `-77` yields the unknown-error kind carrying `-77`. -/
theorem C2_status_mapping_witness :
    NotificationError.tryFrom (-77) = .error (.unknown (-77)) :=
  C2_status_mapping.2.2.2.2.2.2.2.2.2.2.2.2 (-77) (by decide) (by decide)
    (by decide) (by decide) (by decide) (by decide) (by decide) (by decide)
    (by decide) (by decide) (by decide)

/-- C10: the default builder (all kinds share `impl Default for
NotificationBuilder`) has empty text, a five-second duration, white
text color, black background at half opacity (alpha 127 after the
saturating `f32` → `u8` cast of `127.5`), no callback, keep-until-shown
set, and no shake or delay; and every setter replaces exactly its own
field, leaving all others unchanged. -/
theorem C10_builder_default_and_setters :
    NotificationBuilder.mkDefault =
      { text := []
        duration := ⟨5, 0⟩
        text_color := ⟨255, 255, 255, 255⟩
        background_color := ⟨0, 0, 0, 127⟩
        callback := none
        keep_until_shown := true
        shake := none
        delay := none } ∧
    (∀ (b : NotificationBuilder) (t : List Nat),
      b.set_text t = { b with text := t }) ∧
    (∀ (b : NotificationBuilder) (d : Duration),
      b.set_duration d = { b with duration := d }) ∧
    (∀ (b : NotificationBuilder) (c : Color),
      b.set_text_color c = { b with text_color := c }) ∧
    (∀ (b : NotificationBuilder) (c : Color),
      b.set_background_color c = { b with background_color := c }) ∧
    (∀ (b : NotificationBuilder) (f : Closure),
      b.set_callback f = { b with callback := some f }) ∧
    (∀ (b : NotificationBuilder) (k : Bool),
      b.set_keep_until_shown k = { b with keep_until_shown := k }) ∧
    (∀ (b : NotificationBuilder) (d : Option Duration),
      b.set_shake d = { b with shake := d }) ∧
    (∀ (b : NotificationBuilder) (d : Option Duration),
      b.set_delay d = { b with delay := d }) :=
  ⟨by unfold NotificationBuilder.mkDefault
      rw [Color_white_one, Color_black_half, Duration.from_secs],
    fun _ _ => rfl, fun _ _ => rfl, fun _ _ => rfl, fun _ _ => rfl,
    fun _ _ => rfl, fun _ _ => rfl, fun _ _ => rfl, fun _ _ => rfl⟩

/-- C5: an unconfigured Error-kind notification request (`error text`)
has background color solid red and shake duration one second, distinct
from the zero-value defaults that the Info and Dynamic kinds keep. -/
theorem C5_error_kind_defaults (t : List Nat) :
    (error t).background_color = Color.red 1 ∧
    Color.red 1 = ⟨255, 0, 0, 255⟩ ∧
    (error t).shake = some (Duration.from_secs 1) ∧
    secsOrZero (error t).shake = 1 ∧
    (error t).background_color ≠
      NotificationBuilder.mkDefault.background_color ∧
    (error t).shake ≠ NotificationBuilder.mkDefault.shake ∧
    (info t).background_color =
      NotificationBuilder.mkDefault.background_color ∧
    (dynamic t).background_color =
      NotificationBuilder.mkDefault.background_color ∧
    (info t).shake = none ∧
    (dynamic t).shake = none ∧
    secsOrZero NotificationBuilder.mkDefault.shake = 0 :=
  ⟨rfl, Color_red_one,
    rfl,
    by show secsOrZero (some (Duration.from_secs 1)) = 1
       norm_num [secsOrZero, Duration.as_secs_f32, Duration.from_secs],
    by show Color.red 1 ≠ Color.black (1 / 2)
       rw [Color_red_one, Color_black_half]
       decide,
    by show (some (Duration.from_secs 1) : Option Duration) ≠ none
       decide,
    rfl, rfl, rfl, rfl, rfl⟩

/-- C1: for every builder kind, text with an embedded zero byte makes
`show()` fail with the internal-embedded-NUL error before any native
entry point is invoked and before any lifecycle guard is acquired
(empty trace); text without a zero byte dispatches to the kind's native
add entry point. -/
theorem C1_zero_byte_gates_dispatch (b : NotificationBuilder) (status : Int)
    (handle : Nat) :
    (cstringFails b.text = true →
      dynamicShow b status handle = (.error .internalZeroByte, []) ∧
      infoShow b status = (.error .internalZeroByte, []) ∧
      errorShow b status = (.error .internalZeroByte, [])) ∧
    (cstringFails b.text = false →
      Event.addDynamic b.text b.text_color b.background_color
          b.callback.isSome b.keep_until_shown ∈
        (dynamicShow b status handle).2 ∧
      Event.addInfo b.text b.duration.as_secs_f32 b.text_color
          b.background_color b.callback.isSome b.keep_until_shown ∈
        (infoShow b status).2 ∧
      Event.addError b.text b.duration.as_secs_f32 (secsOrZero b.shake)
          b.text_color b.background_color b.callback.isSome
          b.keep_until_shown ∈
        (errorShow b status).2) := by
  constructor
  · intro h
    refine ⟨?_, ?_, ?_⟩ <;> simp [dynamicShow, infoShow, errorShow, h]
  · intro h
    refine ⟨?_, ?_, ?_⟩ <;>
      cases htf : NotificationError.tryFrom status <;>
        simp [dynamicShow, infoShow, errorShow, h, htf]

/-- Witness for C1: the concrete text `[72, 0]` (an embedded NUL) makes
the Info-kind `show` fail with the embedded-NUL error and an empty
trace, while the NUL-free text `[72]` reaches the Dynamic-kind native
add call. -/
theorem C1_zero_byte_gates_dispatch_witness :
    infoShow (info [72, 0]) 0 = (.error .internalZeroByte, []) ∧
    Event.addDynamic (dynamic [72]).text (dynamic [72]).text_color
        (dynamic [72]).background_color (dynamic [72]).callback.isSome
        (dynamic [72]).keep_until_shown ∈
      (dynamicShow (dynamic [72]) 0 5).2 :=
  ⟨((C1_zero_byte_gates_dispatch (info [72, 0]) 0 5).1 (by decide)).2.1,
    ((C1_zero_byte_gates_dispatch (dynamic [72]) 0 5).2 (by decide)).1⟩

/-- C6: when the native add entry point returns a non-success status,
`show()` of every kind returns the mapped error kind and the guard
acquired during that dispatch is released (the trace is exactly
acquire, native call, release, so the lifecycle count is unchanged
net); in particular the module-not-found status maps to the
module-not-found kind. -/
theorem C6_native_failure_maps_and_releases (b : NotificationBuilder)
    (status : Int) (handle : Nat) (e : NotificationError)
    (hz : cstringFails b.text = false)
    (he : NotificationError.tryFrom status = .error e) :
    dynamicShow b status handle =
      (.error e,
       [.acq,
        .addDynamic b.text b.text_color b.background_color
          b.callback.isSome b.keep_until_shown, .rel]) ∧
    infoShow b status =
      (.error e,
       [.acq,
        .addInfo b.text b.duration.as_secs_f32 b.text_color
          b.background_color b.callback.isSome b.keep_until_shown, .rel]) ∧
    errorShow b status =
      (.error e,
       [.acq,
        .addError b.text b.duration.as_secs_f32 (secsOrZero b.shake)
          b.text_color b.background_color b.callback.isSome
          b.keep_until_shown, .rel]) ∧
    NotificationError.tryFrom
        NotificationModuleStatus.NOTIFICATION_MODULE_RESULT_MODULE_NOT_FOUND =
      .error .moduleNotFound ∧
    (∀ c i d : Nat,
      (rrcRun ⟨c, i, d⟩
          (lifecycleEvents (dynamicShow b status handle).2)).count = c) ∧
    (∀ c i d : Nat,
      (rrcRun ⟨c, i, d⟩ (lifecycleEvents (infoShow b status).2)).count = c) ∧
    (∀ c i d : Nat,
      (rrcRun ⟨c, i, d⟩ (lifecycleEvents (errorShow b status).2)).count =
        c) := by
  refine ⟨?_, ?_, ?_, rfl, ?_, ?_, ?_⟩ <;>
    simp [dynamicShow, infoShow, errorShow, hz, he, lifecycleEvents,
      rrcRun, rrcStep]

/-- Witness for C6: a Dynamic-kind dispatch of the NUL-free text `[72]`
with the concrete module-not-found status `-1` fails with the
module-not-found kind, the guard being acquired and released around the
native call. -/
theorem C6_native_failure_maps_and_releases_witness :
    dynamicShow (dynamic [72]) (-1) 5 =
      (.error .moduleNotFound,
       [.acq,
        .addDynamic (dynamic [72]).text (dynamic [72]).text_color
          (dynamic [72]).background_color (dynamic [72]).callback.isSome
          (dynamic [72]).keep_until_shown, .rel]) :=
  (C6_native_failure_maps_and_releases (dynamic [72]) (-1) 5 .moduleNotFound
    (by decide) (by rfl)).1

lemma applyMut_eq (n : Notification) (op : MutOp) : applyMut n op = n := by
  cases op <;>
    simp only [applyMut, Notification.updText, Notification.updTextColor,
      Notification.updBgColor] <;>
    (try split) <;> (try split) <;> rfl

lemma applyMuts_eq (n : Notification) (ops : List MutOp) :
    applyMuts n ops = n := by
  induction ops with
  | nil => rfl
  | cons op ops ih =>
      show applyMuts (applyMut n op) ops = n
      rw [applyMut_eq, ih]

/-- C7: each handle mutator marshals its argument and invokes the
matching native update entry point; a non-success status is surfaced as
the mapped error, an embedded NUL in replacement text is rejected with
no native call, and in every case the handle's state (native
identifier, captured delay and shake, held guard) is returned
unchanged — a failed update does not invalidate the handle. -/
theorem C7_mutators_surface_errors_and_preserve_state (n : Notification)
    (t : List Nat) (c : Color) (st : Int) (e : NotificationError) :
    (cstringFails t = true →
      n.updText t st = (.error .internalZeroByte, n, [])) ∧
    (cstringFails t = false → NotificationError.tryFrom st = .error e →
      n.updText t st = (.error e, n, [.updateText n.handle t])) ∧
    (NotificationError.tryFrom st = .error e →
      n.updTextColor c st = (.error e, n, [.updateTextColor n.handle c]) ∧
      n.updBgColor c st = (.error e, n, [.updateBgColor n.handle c])) ∧
    (cstringFails t = false → (∃ x, NotificationError.tryFrom st = .ok x) →
      n.updText t st = (.ok (), n, [.updateText n.handle t])) ∧
    ((∃ x, NotificationError.tryFrom st = .ok x) →
      n.updTextColor c st = (.ok (), n, [.updateTextColor n.handle c]) ∧
      n.updBgColor c st = (.ok (), n, [.updateBgColor n.handle c])) ∧
    (n.updText t st).2.1 = n ∧
    (n.updTextColor c st).2.1 = n ∧
    (n.updBgColor c st).2.1 = n := by
  refine ⟨?_, ?_, ?_, ?_, ?_, ?_, ?_, ?_⟩
  · intro h
    simp [Notification.updText, h]
  · intro h he
    simp [Notification.updText, h, he]
  · intro he
    constructor <;> simp [Notification.updTextColor, Notification.updBgColor, he]
  · rintro h ⟨x, hx⟩
    simp [Notification.updText, h, hx]
  · rintro ⟨x, hx⟩
    constructor <;> simp [Notification.updTextColor, Notification.updBgColor, hx]
  · exact applyMut_eq n (.updText t st)
  · exact applyMut_eq n (.updTextColor c st)
  · exact applyMut_eq n (.updBgColor c st)

/-- Witness for C7: on the concrete handle `⟨5, 0, 0⟩`, a text update
to `[87]` with the failing status `-1` surfaces the module-not-found
error while the handle state is unchanged. -/
theorem C7_mutators_witness :
    Notification.updText ⟨5, 0, 0⟩ [87] (-1) =
      (.error .moduleNotFound, ⟨5, 0, 0⟩, [.updateText 5 [87]]) :=
  (C7_mutators_surface_errors_and_preserve_state ⟨5, 0, 0⟩ [87]
      ⟨0, 0, 0, 0⟩ (-1) .moduleNotFound).2.1 (by decide) (by rfl)

/-- C3: a successful Dynamic `show()` returns a handle storing the
builder's delay and shake converted to fractional seconds (zero when
unset) together with the guard acquired during dispatch (the dispatch
trace ends without releasing its acquisition), and release of the
handle — after any number of intervening mutator calls — invokes the
native finish-with-shake entry point exactly once with exactly those
construction-time values, the guard being released only after the
finish call returns. -/
theorem C3_dynamic_handle_finalize (b : NotificationBuilder) (status : Int)
    (handle : Nat) (n : Notification) (ops : List MutOp)
    (hok : (dynamicShow b status handle).1 = .ok n) :
    n = ⟨handle, secsOrZero b.delay, secsOrZero b.shake⟩ ∧
    (dynamicShow b status handle).2 =
      [.acq,
       .addDynamic b.text b.text_color b.background_color
         b.callback.isSome b.keep_until_shown] ∧
    applyMuts n ops = n ∧
    (∀ fin : Int, ∀ x, NotificationError.tryFrom fin = .ok x →
      dropNotification (applyMuts n ops) fin =
        ([.finishWithShake handle (secsOrZero b.delay) (secsOrZero b.shake),
          .rel], false)) ∧
    (∀ fin : Int, ∀ e, NotificationError.tryFrom fin = .error e →
      dropNotification (applyMuts n ops) fin =
        ([.finishWithShake handle (secsOrZero b.delay) (secsOrZero b.shake)],
         true)) := by
  have hz : cstringFails b.text = false := by
    by_contra hz
    rw [Bool.not_eq_false] at hz
    simp [dynamicShow, hz] at hok
  cases htf : NotificationError.tryFrom status with
  | error e => simp [dynamicShow, hz, htf] at hok
  | ok x =>
      have hn : n = ⟨handle, secsOrZero b.delay, secsOrZero b.shake⟩ := by
        simp [dynamicShow, hz, htf] at hok
        exact hok.symm
      subst hn
      refine ⟨rfl, by simp [dynamicShow, hz, htf], applyMuts_eq _ _, ?_, ?_⟩
      · intro fin x hx
        rw [applyMuts_eq]
        simp [dropNotification, hx]
      · intro fin e he
        rw [applyMuts_eq]
        simp [dropNotification, he]

/-- Witness for C3: a Dynamic builder with NUL-free text `[72]`, a
two-second delay and a three-second shake, dispatched with the success
status, yields the handle `⟨9, 2, 3⟩`; dropping it after a mutator call
emits exactly one finish call with delay 2 and shake 3 followed by the
guard release. -/
theorem C3_dynamic_handle_finalize_witness :
    dropNotification
        (applyMuts ⟨9, 2, 3⟩ [.updText [87] 0])
        NotificationModuleStatus.NOTIFICATION_MODULE_RESULT_SUCCESS =
      ([.finishWithShake 9
          (secsOrZero ((dynamic [72]).set_delay
            (some (Duration.from_secs 2))).delay)
          (secsOrZero (((dynamic [72]).set_delay
            (some (Duration.from_secs 2))).set_shake
              (some (Duration.from_secs 3))).shake), .rel], false) := by
  have h := C3_dynamic_handle_finalize
    (((dynamic [72]).set_delay (some (Duration.from_secs 2))).set_shake
      (some (Duration.from_secs 3)))
    NotificationModuleStatus.NOTIFICATION_MODULE_RESULT_SUCCESS 9
    ⟨9, 2, 3⟩ [.updText [87] 0]
    (by
      have hz :
          ¬ (cstringFails (((dynamic [72]).set_delay
              (some (Duration.from_secs 2))).set_shake
                (some (Duration.from_secs 3))).text = true) := by decide
      unfold dynamicShow
      rw [if_neg hz, tryFrom_success]
      simp [secsOrZero, Duration.as_secs_f32, Duration.from_secs,
        NotificationBuilder.set_shake, NotificationBuilder.set_delay,
        dynamic, NotificationBuilder.set_text, NotificationBuilder.mkDefault])
  exact h.2.2.2.1 NotificationModuleStatus.NOTIFICATION_MODULE_RESULT_SUCCESS
    _ tryFrom_success

/-- C8: during handle release, a success status from the native
finish-with-shake call lets the release complete without panic; any
non-success status makes the release path panic (the `unwrap` on the
mapped error) instead of returning a recoverable error. -/
theorem C8_drop_panics_iff_failure (n : Notification) (st : Int)
    (h : st ≠ NotificationModuleStatus.NOTIFICATION_MODULE_RESULT_SUCCESS) :
    (dropNotification n
        NotificationModuleStatus.NOTIFICATION_MODULE_RESULT_SUCCESS).2 =
      false ∧
    (dropNotification n st).2 = true := by
  constructor
  · unfold dropNotification
    rw [tryFrom_success]
  · obtain ⟨e, he⟩ := tryFrom_error_of_ne st h
    unfold dropNotification
    rw [he]

lemma lookup_box (h : Heap) (f : Closure) :
    (⟨h.next + 1, (h.next, f) :: h.live⟩ : Heap).lookup h.next = some f := by
  simp [Heap.lookup, List.find?]

lemma lookup_free_self (h : Heap) (addr : Nat) :
    (h.free addr).lookup addr = none := by
  simp only [Heap.free, Heap.lookup, Option.map_eq_none', List.find?_eq_none,
    List.mem_filter]
  intro p hp
  simpa using hp.2

/-- C4: the callback bridge. With no closure supplied, the native call
receives no trampoline pointer and a null context, and no allocation
occurs; with a closure supplied, the trampoline is passed together with
a heap-allocated context holding the boxed closure. The trampoline does
nothing on a null context, and on the submitted context reclaims the
boxed closure, invokes it exactly once and consumes it (the allocation
is gone afterwards). -/
theorem C4_callback_bridge (h : Heap) (f : Closure) (addr : Nat)
    (g : Closure) :
    resolveCallback none h = (false, none, h) ∧
    (resolveCallback (some f) h).1 = true ∧
    (resolveCallback (some f) h).2.1 = some h.next ∧
    (resolveCallback (some f) h).2.2.lookup h.next = some f ∧
    notification_callback none h = (h, []) ∧
    (h.lookup addr = some g →
      (notification_callback (some addr) h).2 = [g] ∧
      (notification_callback (some addr) h).1.lookup addr = none) ∧
    notification_callback (some h.next) (resolveCallback (some f) h).2.2 =
      ((resolveCallback (some f) h).2.2.free h.next, [f]) := by
  refine ⟨rfl, rfl, rfl, lookup_box h f, rfl, ?_, ?_⟩
  · intro hg
    simp only [notification_callback, hg]
    exact ⟨trivial, lookup_free_self h addr⟩
  · show notification_callback (some h.next)
        ⟨h.next + 1, (h.next, f) :: h.live⟩ =
      ((⟨h.next + 1, (h.next, f) :: h.live⟩ : Heap).free h.next, [f])
    simp only [notification_callback, lookup_box]

/-- Witness for C4: on a concrete heap holding the closure token `42`
at address `0`, the trampoline invoked with that context performs
exactly one invocation of `42` and frees the allocation. -/
theorem C4_callback_bridge_witness :
    (notification_callback (some 0) ⟨1, [(0, 42)]⟩).2 = [42] ∧
    (notification_callback (some 0) ⟨1, [(0, 42)]⟩).1.lookup 0 = none :=
  (C4_callback_bridge ⟨1, [(0, 42)]⟩ 42 0 42).2.2.2.2.2.1 (by decide)

/-- Witness for C8 at a concrete handle and the concrete failure status
`-1`: the success-status release does not panic, the failed release
does. -/
theorem C8_drop_panics_iff_failure_witness :
    (dropNotification ⟨3, 0, 0⟩
        NotificationModuleStatus.NOTIFICATION_MODULE_RESULT_SUCCESS).2 =
      false ∧
    (dropNotification ⟨3, 0, 0⟩ (-1)).2 = true :=
  C8_drop_panics_iff_failure ⟨3, 0, 0⟩ (-1) (by decide)

lemma rrcRun_append (s : RrcState) (l1 l2 : List RrcEvent) :
    rrcRun s (l1 ++ l2) = rrcRun (rrcRun s l1) l2 :=
  List.foldl_append rrcStep s l1 l2

lemma rrcRun_acq_count (k : Nat) (s : RrcState) :
    (rrcRun s (List.replicate k .acq)).count = s.count + k := by
  induction k generalizing s with
  | zero => rfl
  | succ k ih =>
      rw [List.replicate_succ]
      show (rrcRun (rrcStep s .acq) (List.replicate k .acq)).count = _
      rw [ih]
      rcases s with ⟨c, i, d⟩
      dsimp only [rrcStep]
      omega

lemma rrcRun_acq_inits (k : Nat) (s : RrcState) :
    (rrcRun s (List.replicate k .acq)).inits =
      s.inits + (if s.count = 0 ∧ 0 < k then 1 else 0) := by
  induction k generalizing s with
  | zero =>
      simp [rrcRun]
  | succ k ih =>
      rw [List.replicate_succ]
      show (rrcRun (rrcStep s .acq) (List.replicate k .acq)).inits = _
      rw [ih]
      rcases s with ⟨c, i, d⟩
      dsimp only [rrcStep]
      split_ifs <;> (try simp_all) <;> omega

lemma rrcRun_acq_deinits (k : Nat) (s : RrcState) :
    (rrcRun s (List.replicate k .acq)).deinits = s.deinits := by
  induction k generalizing s with
  | zero => rfl
  | succ k ih =>
      rw [List.replicate_succ]
      show (rrcRun (rrcStep s .acq) (List.replicate k .acq)).deinits = _
      rw [ih]
      rcases s with ⟨c, i, d⟩
      rfl

lemma rrcRun_rel_count (k : Nat) (s : RrcState) :
    (rrcRun s (List.replicate k .rel)).count = s.count - k := by
  induction k generalizing s with
  | zero => rfl
  | succ k ih =>
      rw [List.replicate_succ]
      show (rrcRun (rrcStep s .rel) (List.replicate k .rel)).count = _
      rw [ih]
      rcases s with ⟨c, i, d⟩
      dsimp only [rrcStep]
      omega

lemma rrcRun_rel_inits (k : Nat) (s : RrcState) :
    (rrcRun s (List.replicate k .rel)).inits = s.inits := by
  induction k generalizing s with
  | zero => rfl
  | succ k ih =>
      rw [List.replicate_succ]
      show (rrcRun (rrcStep s .rel) (List.replicate k .rel)).inits = _
      rw [ih]
      rcases s with ⟨c, i, d⟩
      rfl

lemma rrcRun_rel_deinits (k : Nat) (s : RrcState) :
    (rrcRun s (List.replicate k .rel)).deinits =
      s.deinits + (if 0 < s.count ∧ s.count ≤ k then 1 else 0) := by
  induction k generalizing s with
  | zero =>
      simp [rrcRun]
      omega
  | succ k ih =>
      rw [List.replicate_succ]
      show (rrcRun (rrcStep s .rel) (List.replicate k .rel)).deinits = _
      rw [ih]
      rcases s with ⟨c, i, d⟩
      dsimp only [rrcStep]
      split_ifs <;> (try simp_all) <;> omega

/-- C9: for N lifecycle acquisitions followed by N releases (the
sequential projection of any interleaving in which every acquisition
precedes every release), starting idle, the initialize entry point runs
exactly once (on the 0→1 transition), the deinitialize entry point runs
exactly once (on the 1→0 transition), the count returns to zero, and at
no prefix of the sequence has deinitialize run while an acquisition is
still outstanding (whenever it has run, the outstanding count is
zero). -/
theorem C9_lifecycle_init_deinit_once (N : Nat) (hN : 0 < N) :
    (rrcRun ⟨0, 0, 0⟩
        (List.replicate N RrcEvent.acq ++
          List.replicate N RrcEvent.rel)).inits = 1 ∧
    (rrcRun ⟨0, 0, 0⟩
        (List.replicate N RrcEvent.acq ++
          List.replicate N RrcEvent.rel)).deinits = 1 ∧
    (rrcRun ⟨0, 0, 0⟩
        (List.replicate N RrcEvent.acq ++
          List.replicate N RrcEvent.rel)).count = 0 ∧
    (∀ i : Nat,
      0 < (rrcRun ⟨0, 0, 0⟩
          ((List.replicate N RrcEvent.acq ++
            List.replicate N RrcEvent.rel).take i)).deinits →
      (rrcRun ⟨0, 0, 0⟩
          ((List.replicate N RrcEvent.acq ++
            List.replicate N RrcEvent.rel).take i)).count = 0) := by
  refine ⟨?_, ?_, ?_, ?_⟩
  · rw [rrcRun_append, rrcRun_rel_inits, rrcRun_acq_inits]
    dsimp only
    split_ifs <;> (try simp_all) <;> omega
  · rw [rrcRun_append, rrcRun_rel_deinits, rrcRun_acq_deinits,
      rrcRun_acq_count]
    dsimp only
    split_ifs <;> (try simp_all) <;> omega
  · rw [rrcRun_append, rrcRun_rel_count, rrcRun_acq_count]
    dsimp only
    omega
  · intro i h
    rw [List.take_append_eq_append_take, List.take_replicate,
      List.length_replicate, List.take_replicate, rrcRun_append,
      rrcRun_rel_deinits, rrcRun_acq_deinits, rrcRun_acq_count] at h
    rw [List.take_append_eq_append_take, List.take_replicate,
      List.length_replicate, List.take_replicate, rrcRun_append,
      rrcRun_rel_count, rrcRun_acq_count]
    dsimp only at h ⊢
    split_ifs at h <;> (try simp_all) <;> omega

/-- Witness for C9 at the concrete N = 2: after two acquisitions and
two releases the lifecycle has run initialize exactly once. -/
theorem C9_lifecycle_init_deinit_once_witness :
    (rrcRun ⟨0, 0, 0⟩
        (List.replicate 2 RrcEvent.acq ++
          List.replicate 2 RrcEvent.rel)).inits = 1 :=
  (C9_lifecycle_init_deinit_once 2 (by decide)).1

end Notif
